import Mathlib

set_option maxRecDepth 4000

/-!
Shallow embedding of the Uno library (src/uno) and verification of the
frozen claims about it.

Python exceptions are modelled by the inductive `PyErr`; fallible Python
functions become Lean functions returning `Except`.  Python's module-level
random generator is modelled by a pure stream `rngStream : Nat -> Nat`
together with a cursor `rngIdx` carried in the game state; `random.choice`
consumes one stream element and picks that index modulo the sequence
length, and `random.shuffle` is modelled by an arbitrary function argument
`sh : List Card -> List Card` supplied by the caller.
-/

deriving instance DecidableEq for Except

/-- Colors of the Uno cards (src/uno/enums.py, class CardColor). -/
inductive CardColor
  | RED
  | BLUE
  | GREEN
  | YELLOW
  | WILDCARD
deriving DecidableEq, Repr

/-- Integer value of each color constant, as in the Python int enum. -/
def CardColor.toNat : CardColor → Nat
  | .RED => 0
  | .BLUE => 1
  | .GREEN => 2
  | .YELLOW => 3
  | .WILDCARD => 4

/-- Values of the Uno cards (src/uno/enums.py, class CardValue). -/
inductive CardValue
  | ZERO
  | ONE
  | TWO
  | THREE
  | FOUR
  | FIVE
  | SIX
  | SEVEN
  | EIGHT
  | NINE
  | SKIP
  | REVERSE
  | DRAW_2
  | DRAW_4
  | PICK_COLOR
deriving DecidableEq, Repr

/-- Integer value of each card value constant, as in the Python int enum. -/
def CardValue.toNat : CardValue → Nat
  | .ZERO => 0
  | .ONE => 1
  | .TWO => 2
  | .THREE => 3
  | .FOUR => 4
  | .FIVE => 5
  | .SIX => 6
  | .SEVEN => 7
  | .EIGHT => 8
  | .NINE => 9
  | .SKIP => 10
  | .REVERSE => 11
  | .DRAW_2 => 12
  | .DRAW_4 => 13
  | .PICK_COLOR => 14

/-- CardValue.is_draw_value: whether the value is DRAW_2 or DRAW_4. -/
def CardValue.is_draw_value (v : CardValue) : Bool :=
  v == CardValue.DRAW_2 || v == CardValue.DRAW_4

/-- Iteration order of the CardColor enum, as Python iterates it. -/
def allCardColors : List CardColor :=
  [.RED, .BLUE, .GREEN, .YELLOW, .WILDCARD]

/-- Iteration order of the CardValue enum, as Python iterates it. -/
def allCardValues : List CardValue :=
  [.ZERO, .ONE, .TWO, .THREE, .FOUR, .FIVE, .SIX, .SEVEN, .EIGHT, .NINE,
   .SKIP, .REVERSE, .DRAW_2, .DRAW_4, .PICK_COLOR]

/-- Exceptions raised by the Python code, one constructor per raise site
kind.  The first five correspond to the UnoError subclasses declared in
src/uno/errors.py; the remaining ones are builtin Python exceptions
(ValueError, IndexError, AssertionError, ZeroDivisionError) raised
directly by the code or by the runtime.  `fuelExhausted` is an embedding
artifact standing for nontermination of the retry loop in
_pick_first_card. -/
inductive PyErr
  | invalidCardError
  | playValidationError
  | inDrawChainButWrongTopCardError
  | specifiedColorButNoCardError
  | gameIsOverError
  | deckIsEmptyError
  | cardNotInDeckError
  | invalidPlayerCountError
  | invalidStartingHandSizeError
  | numberOfCardsTooSmallError
  | deckEmptyCannotRefillError
  | discardPileEmptyError
  | cardNotInHandError
  | contractValueError
  | assertionError
  | indexError
  | zeroDivisionError
  | fuelExhausted
deriving DecidableEq, Repr

/-- Whether the exception class derives from UnoError (src/uno/errors.py):
only the five classes declared there do; the builtin ValueError,
IndexError, AssertionError and ZeroDivisionError do not. -/
def PyErr.derivesFromUnoError : PyErr → Bool
  | .invalidCardError => true
  | .playValidationError => true
  | .inDrawChainButWrongTopCardError => true
  | .specifiedColorButNoCardError => true
  | .gameIsOverError => true
  | _ => false

/-- An Uno card which has a color and a value (src/uno/main.py, class Card).
The dataclass raises InvalidCardError in __post_init__ for invalid
combinations; here the raw pair is the structure and validity is the
predicate `check_valid`, with `Card.construct` modelling the fallible
constructor. -/
structure Card where
  color : CardColor
  value : CardValue
deriving DecidableEq, Repr

/-- Card.is_wild_card: color is WILDCARD and value >= DRAW_4. -/
def Card.is_wild_card (c : Card) : Bool :=
  c.color == CardColor.WILDCARD && CardValue.DRAW_4.toNat ≤ c.value.toNat

/-- Card.is_color_card: color is not WILDCARD and value < DRAW_4. -/
def Card.is_color_card (c : Card) : Bool :=
  c.color != CardColor.WILDCARD && c.value.toNat < CardValue.DRAW_4.toNat

/-- Card._check_valid: the card is a wild card or a color card. -/
def Card.check_valid (c : Card) : Bool :=
  c.is_wild_card || c.is_color_card

/-- Construction of a Card: __post_init__ raises InvalidCardError when the
card is not valid. -/
def Card.construct (color : CardColor) (value : CardValue) : Except PyErr Card :=
  if (Card.mk color value).check_valid then .ok (Card.mk color value)
  else .error .invalidCardError

/-- Card.create_card_safe: construct a card, returning None on
InvalidCardError. -/
def Card.create_card_safe (color : CardColor) (value : CardValue) : Option Card :=
  if (Card.mk color value).check_valid then some (Card.mk color value) else none

/-- Card.number_of_instances_in_full_deck: 4 for wild cards, 1 for ZERO
cards, 2 otherwise; raises InvalidCardError on an invalid card. -/
def Card.number_of_instances_in_full_deck (c : Card) : Except PyErr Nat :=
  if !c.check_valid then .error .invalidCardError
  else if c.is_wild_card then .ok 4
  else if c.value == CardValue.ZERO then .ok 1
  else .ok 2

/-- Card.can_be_played_on_top_of_other (src/uno/main.py lines 87-121).
The Python body falls through the `if self.is_color_card()` block when
the down card is neither a color card nor a wild card; the inner value
`none` marks that fall-through, after which the `is_wild_card` check and
the final AssertionError are reached. -/
def Card.can_be_played_on_top_of_other (self down_card : Card)
    (down_wildcard_color : Option CardColor) (in_draw_chain : Bool) :
    Except PyErr Bool :=
  if in_draw_chain then
    if !down_card.value.is_draw_value then
      .error .inDrawChainButWrongTopCardError
    else
      .ok (self.value == down_card.value)
  else
    match
      (if self.is_color_card then
        if down_card.is_color_card then
          match down_wildcard_color with
          | some _ => .error PyErr.contractValueError
          | none => .ok (some (self.color == down_card.color || self.value == down_card.value))
        else if down_card.is_wild_card then
          match down_wildcard_color with
          | none => .error PyErr.contractValueError
          | some c =>
            if c == CardColor.WILDCARD then .error PyErr.contractValueError
            else .ok (some (self.color == c))
        else .ok none
      else (.ok none : Except PyErr (Option Bool)))
    with
    | .error e => .error e
    | .ok (some b) => .ok b
    | .ok none =>
      if self.is_wild_card then .ok true
      else .error .assertionError

/-- A deck of Uno cards (src/uno/main.py, class Deck). -/
structure Deck where
  cards : List Card
deriving DecidableEq, Repr

/-- Deck.create_full_deck: for every (color, value) pair in enum product
order, skip invalid combinations and replicate each valid card by its
instance count. -/
def Deck.create_full_deck : Deck :=
  Deck.mk <|
    (allCardColors.flatMap fun color => allCardValues.map fun value => (color, value)).flatMap
      fun cv =>
        match Card.create_card_safe cv.1 cv.2 with
        | none => []
        | some candidate_card =>
          match candidate_card.number_of_instances_in_full_deck with
          | .error _ => []
          | .ok n => List.replicate n candidate_card

/-- Deck.remove_card: ValueError "Deck is empty" on an empty deck,
ValueError "... is not in the deck" when the card is absent, else
list.remove removes the first equal element. -/
def Deck.remove_card (d : Deck) (card : Card) : Except PyErr Deck :=
  if d.cards.length = 0 then .error .deckIsEmptyError
  else if !d.cards.contains card then .error .cardNotInDeckError
  else .ok (Deck.mk (d.cards.erase card))

/-- Deck.draw_random_card: random.choice picks an index (IndexError on an
empty sequence), then the chosen card is removed.  The random index is the
supplied pick modulo the deck size. -/
def Deck.draw_random_card (d : Deck) (pick : Nat) : Except PyErr (Card × Deck) :=
  if h : d.cards.length = 0 then .error .indexError
  else
    let random_card := d.cards.get ⟨pick % d.cards.length, Nat.mod_lt _ (Nat.pos_of_ne_zero h)⟩
    match d.remove_card random_card with
    | .error e => .error e
    | .ok d2 => .ok (random_card, d2)

/-- DrawResultOk d pick: drawing with the given pick succeeds and yields a
card that was a member of the deck before the draw, leaving one card
fewer. -/
def DrawResultOk (d : Deck) (pick : Nat) : Prop :=
  ∃ c d2, d.draw_random_card pick = .ok (c, d2) ∧ c ∈ d.cards ∧
    d2.cards.length = d.cards.length - 1

/-- Mutable state of a GameManager (src/uno/main.py, class GameManager).
Players are reduced to their hands: names and the strategy object play no
role in the rules engine, and the chosen move is passed to play_one_round
as an argument instead of being produced by a strategy callback.  The
module-level random generator of Python's random module is part of the
ambient mutable state, so it lives here as the pure stream `rngStream`
with cursor `rngIdx`.  The seed, plotting flag and per-round hand-size
snapshots are omitted: they never influence the rules engine. -/
structure GameState where
  hands : List (List Card)
  round_limit : Nat
  number_of_cards_to_start_with : Nat
  deck : Deck
  discard_pile : List Card
  play_direction : Int
  current_player_index : Nat
  draw_chain : List Card
  round_number : Nat
  temporary_top_card_color : Option CardColor
  next_round_is_skip : Bool
  rngStream : Nat → Nat
  rngIdx : Nat

/-- Result of a stateful operation: Python mutates the manager in place,
so an exception (the error case) also carries the state as mutated up to
the point of the raise. -/
abbrev UnoRes (α : Type) := Except (PyErr × GameState) (α × GameState)

/-- GameManager._calculate_number_of_cards_to_draw_in_current_draw_chain:
2 for each DRAW_2 in the chain, 4 for every other entry. -/
def GameState.calculate_number_of_cards_to_draw_in_current_draw_chain
    (gs : GameState) : Nat :=
  (gs.draw_chain.map fun card => if card.value == CardValue.DRAW_2 then 2 else 4).sum

/-- GameManager.top_card: the last card of the discard pile; ValueError
when the pile is empty.  The inner `none` branch is unreachable since the
length was already checked. -/
def GameState.top_card (gs : GameState) : Except PyErr Card :=
  if gs.discard_pile.length = 0 then .error .discardPileEmptyError
  else
    match gs.discard_pile.getLast? with
    | some c => .ok c
    | none => .error .discardPileEmptyError

/-- GameManager._game_over: some hand is empty or the round limit was
reached. -/
def GameState.game_over (gs : GameState) : Bool :=
  gs.hands.any (fun hand => hand.length == 0) || decide (gs.round_limit ≤ gs.round_number)

/-- GameManager._refill_deck: all but the top discard card, shuffled,
become the deck; the discard pile keeps only its top card.  On an empty
discard pile Python assigns the new (empty) deck and then raises
IndexError at discard_pile[-1]. -/
def GameState.refill_deck (sh : List Card → List Card) (gs : GameState) : UnoRes Unit :=
  let gs1 := { gs with deck := Deck.mk (sh gs.discard_pile.dropLast) }
  match gs.discard_pile.getLast? with
  | none => .error (.indexError, gs1)
  | some top => .ok ((), { gs1 with discard_pile := [top] })

/-- A call of self.deck.draw_random_card() inside the manager: consumes
one element of the random stream as the pick. -/
def GameState.draw_from_deck (gs : GameState) : UnoRes Card :=
  let pick := gs.rngStream gs.rngIdx
  let gs1 := { gs with rngIdx := gs.rngIdx + 1 }
  match gs1.deck.draw_random_card pick with
  | .error e => .error (e, gs1)
  | .ok (card, d2) => .ok (card, { gs1 with deck := d2 })

/-- Player.receive_card for the player at the given index: append the card
to the hand. -/
def GameState.receive_card (i : Nat) (card : Card) (gs : GameState) : UnoRes Unit :=
  match gs.hands[i]? with
  | none => .error (.indexError, gs)
  | some hand => .ok ((), { gs with hands := gs.hands.set i (hand ++ [card]) })

/-- The for-loop body of GameManager._give_player_random_cards, iterated n
times: refill the deck from the discard pile when it is empty, fail if it
is still empty, then draw a random card and hand it to the player. -/
def GameState.give_loop (i : Nat) (sh : List Card → List Card) :
    Nat → GameState → UnoRes Unit
  | 0, gs => .ok ((), gs)
  | n + 1, gs =>
    match (if gs.deck.cards.length = 0 then gs.refill_deck sh else .ok ((), gs)) with
    | .error e => .error e
    | .ok ((), gs1) =>
      if gs1.deck.cards.length = 0 then .error (.deckEmptyCannotRefillError, gs1)
      else
        match gs1.draw_from_deck with
        | .error e => .error e
        | .ok (card, gs2) =>
          match gs2.receive_card i card with
          | .error e => .error e
          | .ok ((), gs3) => GameState.give_loop i sh n gs3

/-- GameManager._give_player_random_cards: ValueError when fewer than one
card is requested, else the draw loop. -/
def GameState.give_player_random_cards (i number_of_cards : Nat)
    (sh : List Card → List Card) (gs : GameState) : UnoRes Unit :=
  if number_of_cards < 1 then .error (.numberOfCardsTooSmallError, gs)
  else GameState.give_loop i sh number_of_cards gs

/-- GameManager.handle_player_does_not_play_a_card: fail with
SpecifiedColorButNoCard if a color was specified, else draw
max(chain sum, 1) cards, clear the draw chain and return the (propagated)
temporary top card color. -/
def GameState.handle_player_does_not_play_a_card (i : Nat)
    (color_for_wildcard : Option CardColor) (sh : List Card → List Card)
    (gs : GameState) : UnoRes (Option CardColor) :=
  match color_for_wildcard with
  | some _ => .error (.specifiedColorButNoCardError, gs)
  | none =>
    let cards_to_give := max gs.calculate_number_of_cards_to_draw_in_current_draw_chain 1
    match gs.give_player_random_cards i cards_to_give sh with
    | .error e => .error e
    | .ok ((), gs1) =>
      let gs2 := { gs1 with draw_chain := [] }
      .ok (gs2.temporary_top_card_color, gs2)

/-- GameManager.validate_card_play (src/uno/main.py lines 386-432), a pure
check: the state is returned unchanged in every branch. -/
def GameState.validate_card_play (i : Nat) (card : Card)
    (color_for_wildcard : Option CardColor) (gs : GameState) : UnoRes Unit :=
  if !card.check_valid then .error (.invalidCardError, gs)
  else if color_for_wildcard == some CardColor.WILDCARD then .error (.playValidationError, gs)
  else
    match gs.hands[i]? with
    | none => .error (.indexError, gs)
    | some hand =>
      if !hand.contains card then .error (.playValidationError, gs)
      else
        match gs.top_card with
        | .error e => .error (e, gs)
        | .ok top =>
          match card.can_be_played_on_top_of_other top gs.temporary_top_card_color
              (decide (0 < gs.draw_chain.length)) with
          | .error e => .error (e, gs)
          | .ok false => .error (.playValidationError, gs)
          | .ok true =>
            if color_for_wildcard == none && card.is_wild_card then
              .error (.playValidationError, gs)
            else if color_for_wildcard != none && !card.is_wild_card then
              .error (.playValidationError, gs)
            else .ok ((), gs)

/-- Player.remove_card_from_player for the player at the given index:
ValueError when the card is not in the hand, else list.remove removes the
first equal element. -/
def GameState.remove_card_from_player (i : Nat) (card : Card) (gs : GameState) : UnoRes Unit :=
  match gs.hands[i]? with
  | none => .error (.indexError, gs)
  | some hand =>
    if !hand.contains card then .error (.cardNotInHandError, gs)
    else .ok ((), { gs with hands := gs.hands.set i (hand.erase card) })

/-- GameManager.handle_player_wants_to_play_a_card: validate, remove the
card from the hand, append draw cards to the chain, flip the direction on
REVERSE, and return the specified wildcard color.  The discard-pile append
happens later, in play_one_round. -/
def GameState.handle_player_wants_to_play_a_card (i : Nat) (card : Card)
    (color_for_wildcard : Option CardColor) (gs : GameState) : UnoRes (Option CardColor) :=
  match gs.validate_card_play i card color_for_wildcard with
  | .error e => .error e
  | .ok ((), gs0) =>
    match gs0.remove_card_from_player i card with
    | .error e => .error e
    | .ok ((), gs1) =>
      let gs2 := if card.value.is_draw_value then
          { gs1 with draw_chain := gs1.draw_chain ++ [card] } else gs1
      let gs3 := if card.value == CardValue.REVERSE then
          { gs2 with play_direction := if gs2.play_direction == -1 then 1 else -1 } else gs2
      .ok (color_for_wildcard, gs3)

/-- GameManager.handle_play: dispatch on whether a card was chosen. -/
def GameState.handle_play (i : Nat) (card_opt : Option Card)
    (color_for_wildcard : Option CardColor) (sh : List Card → List Card)
    (gs : GameState) : UnoRes (Option CardColor) :=
  match card_opt with
  | none => gs.handle_player_does_not_play_a_card i color_for_wildcard sh
  | some card => gs.handle_player_wants_to_play_a_card i card color_for_wildcard

/-- Common tail of GameManager.play_one_round: advance the current player
index by the play direction modulo the player count (Python % on a
positive modulus is the euclidean remainder; on zero players it raises
ZeroDivisionError), increment the round number and report whether the
game is over. -/
def GameState.advance_and_finish (gs : GameState) : UnoRes Bool :=
  if gs.hands.length = 0 then .error (.zeroDivisionError, gs)
  else
    let gs1 := { gs with current_player_index :=
      (((gs.current_player_index : Int) + gs.play_direction) % (gs.hands.length : Int)).toNat }
    let gs2 := { gs1 with round_number := gs1.round_number + 1 }
    .ok (gs2.game_over, gs2)

/-- GameManager.play_one_round (src/uno/main.py lines 342-374).  The move
the current player would choose is a parameter; fetching the player
(indexing the player list) and reading the top card for the strategy call
are modelled, since both can raise. -/
def GameState.play_one_round (move : Option Card × Option CardColor)
    (sh : List Card → List Card) (gs : GameState) : UnoRes Bool :=
  if gs.game_over then .error (.gameIsOverError, gs)
  else
    match gs.hands[gs.current_player_index]? with
    | none => .error (.indexError, gs)
    | some _ =>
      if gs.next_round_is_skip then
        GameState.advance_and_finish { gs with next_round_is_skip := false }
      else
        match gs.top_card with
        | .error e => .error (e, gs)
        | .ok _ =>
          match gs.handle_play gs.current_player_index move.1 move.2 sh with
          | .error e => .error e
          | .ok (temp_color, gs1) =>
            let gs2 :=
              match move.1 with
              | none => gs1
              | some card =>
                let g := { gs1 with discard_pile := gs1.discard_pile ++ [card] }
                if card.value == CardValue.SKIP then { g with next_round_is_skip := true } else g
            GameState.advance_and_finish { gs2 with temporary_top_card_color := temp_color }

/-- GameManager._pick_first_card: draw until the card is not a wild card,
recreating a full deck after each wild draw.  The Python while-loop can
run forever on an adversarial random stream, so the recursion carries fuel
and reports `fuelExhausted` when it runs out. -/
def GameState.pick_first_card (fuel : Nat) (gs : GameState) : UnoRes Card :=
  match fuel with
  | 0 => .error (.fuelExhausted, gs)
  | n + 1 =>
    match gs.draw_from_deck with
    | .error e => .error e
    | .ok (card, gs1) =>
      if !card.is_wild_card then .ok (card, gs1)
      else GameState.pick_first_card n { gs1 with deck := Deck.create_full_deck }

/-- GameManager._give_starting_cards: each player in order receives the
configured number of starting cards. -/
def GameState.give_starting_loop (sh : List Card → List Card) :
    List Nat → GameState → UnoRes Unit
  | [], gs => .ok ((), gs)
  | i :: rest, gs =>
    match gs.give_player_random_cards i gs.number_of_cards_to_start_with sh with
    | .error e => .error e
    | .ok ((), gs1) => GameState.give_starting_loop sh rest gs1

/-- GameManager._do_pre_game_setup: flip the first (non-wild) card onto
the discard pile, then deal the starting hands. -/
def GameState.do_pre_game_setup (fuel : Nat) (sh : List Card → List Card)
    (gs : GameState) : UnoRes Unit :=
  match gs.pick_first_card fuel with
  | .error e => .error e
  | .ok (card, gs1) =>
    let gs2 := { gs1 with discard_pile := gs1.discard_pile ++ [card] }
    GameState.give_starting_loop sh (List.range gs2.hands.length) gs2

/-- GameManager construction (__post_init__): 2 to 10 players, starting
hand size at least 1, full deck, empty discard pile, direction 1, player
index 0, empty draw chain, round 0, no assigned wildcard color, no
pending skip. -/
def GameState.construct (num_players round_limit number_of_cards_to_start_with : Nat)
    (stream : Nat → Nat) : Except PyErr GameState :=
  if !(2 ≤ num_players && num_players ≤ 10) then .error .invalidPlayerCountError
  else if number_of_cards_to_start_with < 1 then .error .invalidStartingHandSizeError
  else .ok {
    hands := List.replicate num_players []
    round_limit := round_limit
    number_of_cards_to_start_with := number_of_cards_to_start_with
    deck := Deck.create_full_deck
    discard_pile := []
    play_direction := 1
    current_player_index := 0
    draw_chain := []
    round_number := 0
    temporary_top_card_color := none
    next_round_is_skip := false
    rngStream := stream
    rngIdx := 0 }

/-- SpecDrawSum: the pending penalty amount as the claim words it — 2 for
each Draw2 entry of the draw chain and 4 for each Draw4 entry (other
values, which never occur in a reachable chain, contribute nothing). -/
def SpecDrawSum (gs : GameState) : Nat :=
  (gs.draw_chain.map fun card =>
    if card.value = CardValue.DRAW_2 then 2
    else if card.value = CardValue.DRAW_4 then 4
    else 0).sum

/-- HandToDiscard gs gs' card: the acting player's hand held the card and
lost (exactly) its first copy, and the discard pile gained the card on
top. -/
def HandToDiscard (gs gs' : GameState) (card : Card) : Prop :=
  ∃ hand, gs.hands[gs.current_player_index]? = some hand ∧ card ∈ hand ∧
    gs'.hands[gs.current_player_index]? = some (hand.erase card) ∧
    gs'.discard_pile = gs.discard_pile ++ [card]

/-- Invariant of C3: the assigned wildcard color is None whenever the top
discard card is a color card, and is a set non-wildcard color whenever the
top card is a wildcard. -/
def GameState.color_invariant (gs : GameState) : Bool :=
  match gs.discard_pile.getLast? with
  | none => true
  | some top =>
    (!top.is_color_card || gs.temporary_top_card_color == none) &&
    (!top.is_wild_card ||
      match gs.temporary_top_card_color with
      | some c => c != CardColor.WILDCARD
      | none => false)

/-- States reachable from a successful construction and pre-game setup by
successful play_one_round calls, for any move choices, random stream and
shuffle behaviour. -/
inductive Reachable : GameState → Prop where
  | setup : ∀ (np rl sn fuel : Nat) (stream : Nat → Nat)
      (sh : List Card → List Card) (gs0 gs : GameState),
      GameState.construct np rl sn stream = .ok gs0 →
      gs0.do_pre_game_setup fuel sh = .ok ((), gs) →
      Reachable gs
  | step : ∀ (gs : GameState) (move : Option Card × Option CardColor)
      (sh : List Card → List Card) (b : Bool) (gs' : GameState),
      Reachable gs → gs.play_one_round move sh = .ok (b, gs') → Reachable gs'

/-- Identity shuffle, used by the concrete witnesses. -/
def idSh : List Card → List Card := fun cards => cards

/-- Random stream that always picks index 0, used by the witnesses. -/
def zeroStream : Nat → Nat := fun _ => 0

/-- Sample card: red Zero. -/
def redZero : Card := Card.mk CardColor.RED CardValue.ZERO

/-- Sample card: red One. -/
def redOne : Card := Card.mk CardColor.RED CardValue.ONE

/-- Sample card: blue Two. -/
def blueTwo : Card := Card.mk CardColor.BLUE CardValue.TWO

/-- Sample card: green Three. -/
def greenThree : Card := Card.mk CardColor.GREEN CardValue.THREE

/-- Sample card: red Draw2. -/
def redDraw2 : Card := Card.mk CardColor.RED CardValue.DRAW_2

/-- Concrete mid-game state with the pending-skip flag set (C10 witness). -/
def wSkipGs : GameState where
  hands := [[redOne], [blueTwo]]
  round_limit := 10
  number_of_cards_to_start_with := 7
  deck := Deck.mk []
  discard_pile := [redZero]
  play_direction := 1
  current_player_index := 0
  draw_chain := []
  round_number := 0
  temporary_top_card_color := none
  next_round_is_skip := true
  rngStream := zeroStream
  rngIdx := 0

/-- The state after the skipped round of `wSkipGs`. -/
def wSkipAfter : GameState :=
  { wSkipGs with
    next_round_is_skip := false
    current_player_index :=
      (((wSkipGs.current_player_index : Int) + wSkipGs.play_direction)
        % (wSkipGs.hands.length : Int)).toNat
    round_number := wSkipGs.round_number + 1 }

/-- Concrete mid-game state with a one-card draw chain (C2 witness). -/
def wC2Gs : GameState where
  hands := [[redOne], [blueTwo]]
  round_limit := 10
  number_of_cards_to_start_with := 7
  deck := Deck.mk [blueTwo, greenThree, redOne]
  discard_pile := [redDraw2]
  play_direction := 1
  current_player_index := 0
  draw_chain := [redDraw2]
  round_number := 0
  temporary_top_card_color := none
  next_round_is_skip := false
  rngStream := zeroStream
  rngIdx := 0

/-- Concrete mid-game state from which red One is playable (C5 witness). -/
def wC5Gs : GameState where
  hands := [[redOne, blueTwo], [greenThree]]
  round_limit := 10
  number_of_cards_to_start_with := 7
  deck := Deck.mk []
  discard_pile := [redZero]
  play_direction := 1
  current_player_index := 0
  draw_chain := []
  round_number := 0
  temporary_top_card_color := none
  next_round_is_skip := false
  rngStream := zeroStream
  rngIdx := 0

/-- Result of playing red One from `wC5Gs`. -/
def wC5Run : UnoRes Bool := wC5Gs.play_one_round (some redOne, none) idSh

/-- Final state of `wC5Run`. -/
def wC5After : GameState :=
  match wC5Run with
  | .ok (_, gs) => gs
  | .error (_, gs) => gs

/-- Game-over flag returned by `wC5Run`. -/
def wC5Bool : Bool :=
  match wC5Run with
  | .ok (b, _) => b
  | .error _ => false

/-- The game state right after a successful construction with 2 players,
round limit 1000, one starting card and the all-zeros random stream. -/
def demoGs0 : GameState where
  hands := [[], []]
  round_limit := 1000
  number_of_cards_to_start_with := 1
  deck := Deck.create_full_deck
  discard_pile := []
  play_direction := 1
  current_player_index := 0
  draw_chain := []
  round_number := 0
  temporary_top_card_color := none
  next_round_is_skip := false
  rngStream := zeroStream
  rngIdx := 0

/-- Running the pre-game setup on `demoGs0`. -/
def demoSetup : UnoRes Unit := demoGs0.do_pre_game_setup 1 idSh

/-- The state after the demo setup (C3 witness). -/
def demoGs : GameState :=
  match demoSetup with
  | .ok (_, gs) => gs
  | .error (_, gs) => gs

/-- A wild card is not a color card: its color is the WILDCARD sentinel. -/
theorem Card.wild_not_color {c : Card} (h : c.is_wild_card = true) :
    c.is_color_card = false := by
  unfold Card.is_wild_card at h
  unfold Card.is_color_card
  simp only [Bool.and_eq_true, beq_iff_eq] at h
  simp [h.1]

/-- C1 counterexample: both cards are valid color cards of the same color,
the candidate is a color card and the top card is a color card sharing its
color, yet with a (nevertheless specified) wildcard color the function
does not return true: it raises a contract ValueError. -/
theorem uno_c1_counterexample :
    (Card.mk CardColor.RED CardValue.ZERO).check_valid = true ∧
    (Card.mk CardColor.RED CardValue.ONE).check_valid = true ∧
    (Card.mk CardColor.RED CardValue.ZERO).is_color_card = true ∧
    (Card.mk CardColor.RED CardValue.ONE).is_color_card = true ∧
    (Card.mk CardColor.RED CardValue.ZERO).color = (Card.mk CardColor.RED CardValue.ONE).color ∧
    Card.can_be_played_on_top_of_other (Card.mk CardColor.RED CardValue.ZERO)
      (Card.mk CardColor.RED CardValue.ONE) (some CardColor.RED) false ≠ .ok true ∧
    Card.can_be_played_on_top_of_other (Card.mk CardColor.RED CardValue.ZERO)
      (Card.mk CardColor.RED CardValue.ONE) (some CardColor.RED) false
      = .error .contractValueError := by
  decide

/-- C1 (amended): for valid cards c and t, can_be_played_on_top_of_other
implements the legality rules: in a draw chain it fails with
InDrawChainButWrongTopCard unless t is draw-valued and otherwise returns
whether the values are exactly equal; outside a draw chain a color-card
candidate against a color-card top requires the wildcard color to be unset
(else a contract ValueError) and returns same-color-or-same-value, against
a wildcard top requires the wildcard color to be a set non-wildcard color
(else a contract ValueError) and returns color-equals-assigned-color; a
wildcard candidate is always legal. -/
theorem uno_c1 (c t : Card) (w : Option CardColor) (d : Bool)
    (hc : c.check_valid = true) (ht : t.check_valid = true) :
    (d = true →
      (t.value.is_draw_value = false →
        c.can_be_played_on_top_of_other t w d = .error .inDrawChainButWrongTopCardError) ∧
      (t.value.is_draw_value = true →
        c.can_be_played_on_top_of_other t w d = .ok (c.value == t.value))) ∧
    (d = false → c.is_color_card = true → t.is_color_card = true →
      (w = none → c.can_be_played_on_top_of_other t w d
          = .ok (c.color == t.color || c.value == t.value)) ∧
      (w ≠ none → c.can_be_played_on_top_of_other t w d = .error .contractValueError)) ∧
    (d = false → c.is_color_card = true → t.is_wild_card = true →
      ((w = none ∨ w = some CardColor.WILDCARD) →
        c.can_be_played_on_top_of_other t w d = .error .contractValueError) ∧
      (∀ x, w = some x → x ≠ CardColor.WILDCARD →
        c.can_be_played_on_top_of_other t w d = .ok (c.color == x))) ∧
    (d = false → c.is_wild_card = true →
      c.can_be_played_on_top_of_other t w d = .ok true) := by
  refine ⟨?_, ?_, ?_, ?_⟩
  · rintro rfl
    constructor
    · intro hv; simp [Card.can_be_played_on_top_of_other, hv]
    · intro hv; simp [Card.can_be_played_on_top_of_other, hv]
  · rintro rfl hcc htc
    constructor
    · rintro rfl; simp [Card.can_be_played_on_top_of_other, hcc, htc]
    · intro hw
      obtain ⟨x, hx⟩ := Option.ne_none_iff_exists.mp hw
      simp [Card.can_be_played_on_top_of_other, hcc, htc, ← hx]
  · rintro rfl hcc htw
    have htc : t.is_color_card = false := Card.wild_not_color htw
    constructor
    · rintro (rfl | rfl) <;>
        simp [Card.can_be_played_on_top_of_other, hcc, htc, htw]
    · rintro x rfl hx
      simp [Card.can_be_played_on_top_of_other, hcc, htc, htw, hx]
  · rintro rfl hw
    have hcc : c.is_color_card = false := Card.wild_not_color hw
    simp [Card.can_be_played_on_top_of_other, hcc, hw]

/-- C1 witness: a red Zero may be played on a red One outside a draw chain
with no assigned wildcard color. -/
theorem uno_c1_witness :
    Card.can_be_played_on_top_of_other (Card.mk CardColor.RED CardValue.ZERO)
      (Card.mk CardColor.RED CardValue.ONE) none false = .ok true := by
  have h := ((uno_c1 (Card.mk CardColor.RED CardValue.ZERO)
      (Card.mk CardColor.RED CardValue.ONE) none false
      (by decide) (by decide)).2.1 rfl (by decide) (by decide)).1 rfl
  exact h.trans (by decide)

/-- C4 counterexample: drawing from an empty deck fails with IndexError
(random.choice on an empty sequence), not with the EmptyDeck ValueError of
remove_card. -/
theorem uno_c4_counterexample :
    Deck.draw_random_card (Deck.mk []) 0 = .error .indexError ∧
    Deck.draw_random_card (Deck.mk []) 0 ≠ .error .deckIsEmptyError := by
  decide

/-- C4 (amended): drawing from a deck with at least one card returns a
member card and shrinks the deck by one; drawing from an empty deck fails
with IndexError (raised by random.choice), not with the EmptyDeck error. -/
theorem uno_c4 (d : Deck) (pick : Nat) :
    (d.cards.length ≠ 0 → DrawResultOk d pick) ∧
    (d.cards.length = 0 → d.draw_random_card pick = .error .indexError) := by
  constructor
  · intro h
    have hlt : pick % d.cards.length < d.cards.length :=
      Nat.mod_lt _ (Nat.pos_of_ne_zero h)
    have hmem : d.cards.get ⟨pick % d.cards.length, hlt⟩ ∈ d.cards :=
      List.get_mem _ _ _
    refine ⟨d.cards.get ⟨pick % d.cards.length, hlt⟩,
      Deck.mk (d.cards.erase (d.cards.get ⟨pick % d.cards.length, hlt⟩)), ?_, hmem, ?_⟩
    · unfold Deck.draw_random_card
      rw [dif_neg h]
      simp [Deck.remove_card, h, hmem]
    · exact List.length_erase_of_mem hmem
  · intro h
    unfold Deck.draw_random_card
    rw [dif_pos h]

/-- C4 witness: drawing from a one-card deck succeeds as described, and
drawing from the empty deck gives IndexError. -/
theorem uno_c4_witness :
    DrawResultOk (Deck.mk [Card.mk CardColor.RED CardValue.ZERO]) 0 ∧
    Deck.draw_random_card (Deck.mk []) 3 = .error .indexError :=
  ⟨(uno_c4 (Deck.mk [Card.mk CardColor.RED CardValue.ZERO]) 0).1 (by decide),
   (uno_c4 (Deck.mk []) 3).2 rfl⟩

/-- C6: create_full_deck returns 108 cards: exactly 1 copy of (color, ZERO)
for each of the 4 non-wildcard colors, exactly 2 copies of every other
valid color-card combination, and exactly 4 copies of each of the 2
wildcard values. -/
theorem uno_c6 :
    Deck.create_full_deck.cards.length = 108 ∧
    (∀ c ∈ allCardColors, c ≠ CardColor.WILDCARD →
      Deck.create_full_deck.cards.count (Card.mk c CardValue.ZERO) = 1) ∧
    (∀ c ∈ allCardColors, ∀ v ∈ allCardValues,
      (Card.mk c v).is_color_card = true → v ≠ CardValue.ZERO →
      Deck.create_full_deck.cards.count (Card.mk c v) = 2) ∧
    Deck.create_full_deck.cards.count (Card.mk CardColor.WILDCARD CardValue.DRAW_4) = 4 ∧
    Deck.create_full_deck.cards.count (Card.mk CardColor.WILDCARD CardValue.PICK_COLOR) = 4 := by
  decide

/-- C6 witness: the per-card counts at two sample cards. -/
theorem uno_c6_witness :
    Deck.create_full_deck.cards.count (Card.mk CardColor.RED CardValue.ZERO) = 1 ∧
    Deck.create_full_deck.cards.count (Card.mk CardColor.BLUE CardValue.DRAW_2) = 2 :=
  ⟨uno_c6.2.1 CardColor.RED (by decide) (by decide),
   uno_c6.2.2.1 CardColor.BLUE (by decide) CardValue.DRAW_2 (by decide) (by decide) (by decide)⟩

/-- C7: constructing Card(C, V) succeeds iff (C is not Wildcard and V is
below Draw4) or (C is Wildcard and V is at least Draw4) in the enum
ordering; every other combination fails with InvalidCard. -/
theorem uno_c7 :
    ∀ c ∈ allCardColors, ∀ v ∈ allCardValues,
      (((c ≠ CardColor.WILDCARD ∧ v.toNat < CardValue.DRAW_4.toNat) ∨
        (c = CardColor.WILDCARD ∧ CardValue.DRAW_4.toNat ≤ v.toNat)) →
        Card.construct c v = .ok (Card.mk c v)) ∧
      (¬((c ≠ CardColor.WILDCARD ∧ v.toNat < CardValue.DRAW_4.toNat) ∨
        (c = CardColor.WILDCARD ∧ CardValue.DRAW_4.toNat ≤ v.toNat)) →
        Card.construct c v = .error .invalidCardError) := by
  decide

/-- C7 witness: a red Five is constructible and a wildcard Five is not. -/
theorem uno_c7_witness :
    Card.construct CardColor.RED CardValue.FIVE = .ok (Card.mk CardColor.RED CardValue.FIVE) ∧
    Card.construct CardColor.WILDCARD CardValue.FIVE = .error .invalidCardError :=
  ⟨(uno_c7 CardColor.RED (by decide) CardValue.FIVE (by decide)).1 (by decide),
   (uno_c7 CardColor.WILDCARD (by decide) CardValue.FIVE (by decide)).2 (by decide)⟩

/-- C8: remove_card fails with EmptyDeck on an empty deck, with
CardNotFound when no equal card is present, and otherwise removes exactly
one matching instance: the size drops by 1, the count of the removed card
drops by 1, and the count of every other card is unchanged. -/
theorem uno_c8 (d : Deck) (card : Card) :
    (d.cards.length = 0 → d.remove_card card = .error .deckIsEmptyError) ∧
    (d.cards.length ≠ 0 → card ∉ d.cards → d.remove_card card = .error .cardNotInDeckError) ∧
    (card ∈ d.cards →
      d.remove_card card = .ok (Deck.mk (d.cards.erase card)) ∧
      (d.cards.erase card).length = d.cards.length - 1 ∧
      (d.cards.erase card).count card = d.cards.count card - 1 ∧
      ∀ other : Card, other ≠ card → (d.cards.erase card).count other = d.cards.count other) := by
  refine ⟨?_, ?_, ?_⟩
  · intro h; simp [Deck.remove_card, h]
  · intro h hmem; simp [Deck.remove_card, h, hmem]
  · intro hmem
    have hne : d.cards.length ≠ 0 := by
      intro h0
      rw [List.length_eq_zero] at h0
      rw [h0] at hmem
      exact absurd hmem (List.not_mem_nil _)
    exact ⟨by simp [Deck.remove_card, hne, hmem],
      List.length_erase_of_mem hmem,
      List.count_erase_self card d.cards,
      fun other ho => List.count_erase_of_ne ho d.cards⟩

/-- C8 witness: removing a red Five from a two-copy deck removes exactly
one copy and leaves the other card untouched. -/
theorem uno_c8_witness :
    (Deck.mk [Card.mk CardColor.RED CardValue.FIVE, Card.mk CardColor.RED CardValue.FIVE,
        Card.mk CardColor.BLUE CardValue.ONE]).remove_card (Card.mk CardColor.RED CardValue.FIVE)
      = .ok (Deck.mk [Card.mk CardColor.RED CardValue.FIVE, Card.mk CardColor.BLUE CardValue.ONE]) := by
  have h := ((uno_c8 (Deck.mk [Card.mk CardColor.RED CardValue.FIVE,
      Card.mk CardColor.RED CardValue.FIVE, Card.mk CardColor.BLUE CardValue.ONE])
      (Card.mk CardColor.RED CardValue.FIVE)).2.2 (by decide)).1
  exact h.trans (by decide)

/-- C10: with the pending-skip flag set on a non-terminal game, a round
clears the flag, advances the player index by the play direction modulo
the player count, increments the round number, and changes nothing else;
the move argument is never consulted. -/
theorem uno_c10 (gs : GameState) (sh : List Card → List Card)
    (move : Option Card × Option CardColor)
    (hover : gs.game_over = false) (hskip : gs.next_round_is_skip = true)
    (hidx : gs.current_player_index < gs.hands.length) :
    gs.play_one_round move sh =
      .ok (({ gs with
          next_round_is_skip := false
          current_player_index :=
            (((gs.current_player_index : Int) + gs.play_direction)
              % (gs.hands.length : Int)).toNat
          round_number := gs.round_number + 1 } : GameState).game_over,
        { gs with
          next_round_is_skip := false
          current_player_index :=
            (((gs.current_player_index : Int) + gs.play_direction)
              % (gs.hands.length : Int)).toNat
          round_number := gs.round_number + 1 }) := by
  have hlen : gs.hands.length ≠ 0 := by omega
  unfold GameState.play_one_round GameState.advance_and_finish
  rw [List.getElem?_eq_getElem hidx]
  simp [hover, hskip, hlen]

/-- C10 witness: the concrete pending-skip state is advanced as stated. -/
theorem uno_c10_witness :
    wSkipGs.play_one_round (none, none) idSh = .ok (wSkipAfter.game_over, wSkipAfter) :=
  uno_c10 wSkipGs idSh (none, none) rfl rfl (by decide)

/-- C9 counterexample: removing from an empty deck raises the EmptyDeck
error, which is a plain ValueError and does not derive from UnoError. -/
theorem uno_c9_counterexample :
    Deck.remove_card (Deck.mk []) (Card.mk CardColor.RED CardValue.ZERO)
      = .error .deckIsEmptyError ∧
    PyErr.derivesFromUnoError .deckIsEmptyError = false := by
  decide

/-- C9 (amended): the five exception classes of errors.py (InvalidCard,
InDrawChainButWrongTopCard, PlayValidation, SpecifiedColorButNoCard,
GameIsOver) derive from UnoError, but the deck errors EmptyDeck and
CardNotFound and the two configuration errors are plain ValueError and do
not derive from UnoError. -/
theorem uno_c9 :
    (PyErr.derivesFromUnoError .invalidCardError = true ∧
      PyErr.derivesFromUnoError .inDrawChainButWrongTopCardError = true ∧
      PyErr.derivesFromUnoError .playValidationError = true ∧
      PyErr.derivesFromUnoError .specifiedColorButNoCardError = true ∧
      PyErr.derivesFromUnoError .gameIsOverError = true) ∧
    (Deck.remove_card (Deck.mk []) (Card.mk CardColor.RED CardValue.ZERO)
        = .error .deckIsEmptyError ∧
      PyErr.derivesFromUnoError .deckIsEmptyError = false) ∧
    (Deck.remove_card (Deck.mk [Card.mk CardColor.BLUE CardValue.ONE])
        (Card.mk CardColor.RED CardValue.ZERO) = .error .cardNotInDeckError ∧
      PyErr.derivesFromUnoError .cardNotInDeckError = false) ∧
    (GameState.construct 1 1000 7 zeroStream = .error .invalidPlayerCountError ∧
      PyErr.derivesFromUnoError .invalidPlayerCountError = false) ∧
    (GameState.construct 2 1000 0 zeroStream = .error .invalidStartingHandSizeError ∧
      PyErr.derivesFromUnoError .invalidStartingHandSizeError = false) :=
  ⟨by decide, by decide, by decide, ⟨rfl, by decide⟩, ⟨rfl, by decide⟩⟩

/-- A color card is not a wild card: its color is not the WILDCARD
sentinel. -/
theorem Card.color_not_wild {c : Card} (h : c.is_color_card = true) :
    c.is_wild_card = false := by
  unfold Card.is_color_card at h
  unfold Card.is_wild_card
  simp only [Bool.and_eq_true, bne_iff_ne] at h
  simp [h.1]

/-- The claim's draw-chain sum formula agrees with the code's when every
chain entry is draw-valued. -/
theorem spec_sum_list : ∀ l : List Card,
    (∀ card ∈ l, card.value.is_draw_value = true) →
    (l.map fun card => if card.value = CardValue.DRAW_2 then 2
        else if card.value = CardValue.DRAW_4 then 4 else 0).sum
      = (l.map fun card => if card.value == CardValue.DRAW_2 then 2 else 4).sum := by
  intro l
  induction l with
  | nil => intro _; rfl
  | cons a t ih =>
    intro h
    have ha := h a (List.mem_cons_self a t)
    have h2 := ih fun c hc => h c (List.mem_cons_of_mem a hc)
    simp only [List.map_cons, List.sum_cons, h2]
    have hv2 : a.value = CardValue.DRAW_2 ∨ a.value = CardValue.DRAW_4 := by
      unfold CardValue.is_draw_value at ha
      simpa using ha
    rcases hv2 with hv | hv <;> simp [hv]

/-- SpecDrawSum agrees with the code's chain sum on draw-valued chains. -/
theorem specDrawSum_eq (gs : GameState)
    (hchain : ∀ card ∈ gs.draw_chain, card.value.is_draw_value = true) :
    SpecDrawSum gs = gs.calculate_number_of_cards_to_draw_in_current_draw_chain :=
  spec_sum_list gs.draw_chain hchain

/-- The conditional deck refill at the head of the draw loop preserves
every field except the deck, and preserves the top discard card. -/
theorem refill_step_spec (sh : List Card → List Card) (gs gs1 : GameState)
    (h : (if gs.deck.cards.length = 0 then gs.refill_deck sh else .ok ((), gs))
      = .ok ((), gs1)) :
    gs1.temporary_top_card_color = gs.temporary_top_card_color ∧
    gs1.discard_pile.getLast? = gs.discard_pile.getLast? ∧
    gs1.draw_chain = gs.draw_chain ∧
    gs1.round_number = gs.round_number ∧
    gs1.current_player_index = gs.current_player_index ∧
    gs1.play_direction = gs.play_direction ∧
    gs1.next_round_is_skip = gs.next_round_is_skip ∧
    gs1.round_limit = gs.round_limit ∧
    gs1.number_of_cards_to_start_with = gs.number_of_cards_to_start_with ∧
    gs1.hands = gs.hands := by
  split at h
  · simp only [GameState.refill_deck] at h
    split at h
    · simp at h
    · rename_i top heq
      injection h with h1
      injection h1 with _ h2
      subst h2
      refine ⟨rfl, ?_, rfl, rfl, rfl, rfl, rfl, rfl, rfl, rfl⟩
      simp [heq]
  · injection h with h1
    injection h1 with _ h2
    subst h2
    exact ⟨rfl, rfl, rfl, rfl, rfl, rfl, rfl, rfl, rfl, rfl⟩

/-- Drawing one card from the deck inside the manager changes only the
deck and the random cursor. -/
theorem draw_from_deck_spec (gs : GameState) (card : Card) (gs2 : GameState)
    (h : gs.draw_from_deck = .ok (card, gs2)) :
    gs2.temporary_top_card_color = gs.temporary_top_card_color ∧
    gs2.discard_pile = gs.discard_pile ∧
    gs2.draw_chain = gs.draw_chain ∧
    gs2.round_number = gs.round_number ∧
    gs2.current_player_index = gs.current_player_index ∧
    gs2.play_direction = gs.play_direction ∧
    gs2.next_round_is_skip = gs.next_round_is_skip ∧
    gs2.round_limit = gs.round_limit ∧
    gs2.number_of_cards_to_start_with = gs.number_of_cards_to_start_with ∧
    gs2.hands = gs.hands := by
  simp only [GameState.draw_from_deck] at h
  split at h
  · simp at h
  · injection h with h1
    injection h1 with _ h2
    subst h2
    exact ⟨rfl, rfl, rfl, rfl, rfl, rfl, rfl, rfl, rfl, rfl⟩

/-- Receiving a card appends it to the indexed player's hand and changes
nothing else. -/
theorem receive_card_spec (i : Nat) (card : Card) (gs gs3 : GameState)
    (h : gs.receive_card i card = .ok ((), gs3)) :
    gs3.temporary_top_card_color = gs.temporary_top_card_color ∧
    gs3.discard_pile = gs.discard_pile ∧
    gs3.draw_chain = gs.draw_chain ∧
    gs3.round_number = gs.round_number ∧
    gs3.current_player_index = gs.current_player_index ∧
    gs3.play_direction = gs.play_direction ∧
    gs3.next_round_is_skip = gs.next_round_is_skip ∧
    gs3.round_limit = gs.round_limit ∧
    gs3.number_of_cards_to_start_with = gs.number_of_cards_to_start_with ∧
    gs3.hands.length = gs.hands.length ∧
    ∀ hand, gs.hands[i]? = some hand → gs3.hands[i]? = some (hand ++ [card]) := by
  simp only [GameState.receive_card] at h
  split at h
  · simp at h
  · rename_i hand0 heq
    injection h with h1
    injection h1 with _ h2
    subst h2
    refine ⟨rfl, rfl, rfl, rfl, rfl, rfl, rfl, rfl, rfl, List.length_set .., ?_⟩
    intro hand hh
    rw [heq] at hh
    injection hh with h4
    subst h4
    have hlt : i < gs.hands.length := (List.getElem?_eq_some.mp heq).1
    exact List.getElem?_set_self hlt

/-- Frame facts of a successful draw loop: everything except the deck,
random cursor, discard pile and hands is untouched, the top discard card
and the hand count are preserved, and the target player's hand grows by
exactly one card per iteration. -/
theorem give_loop_spec (i : Nat) (sh : List Card → List Card) :
    ∀ (n : Nat) (gs gs' : GameState),
      GameState.give_loop i sh n gs = .ok ((), gs') →
      gs'.temporary_top_card_color = gs.temporary_top_card_color ∧
      gs'.discard_pile.getLast? = gs.discard_pile.getLast? ∧
      gs'.draw_chain = gs.draw_chain ∧
      gs'.round_number = gs.round_number ∧
      gs'.current_player_index = gs.current_player_index ∧
      gs'.play_direction = gs.play_direction ∧
      gs'.next_round_is_skip = gs.next_round_is_skip ∧
      gs'.round_limit = gs.round_limit ∧
      gs'.number_of_cards_to_start_with = gs.number_of_cards_to_start_with ∧
      gs'.hands.length = gs.hands.length ∧
      ∀ hand, gs.hands[i]? = some hand →
        ∃ hand', gs'.hands[i]? = some hand' ∧ hand'.length = hand.length + n := by
  intro n
  induction n with
  | zero =>
    intro gs gs' h
    simp only [GameState.give_loop] at h
    injection h with h1
    injection h1 with _ h2
    subst h2
    exact ⟨rfl, rfl, rfl, rfl, rfl, rfl, rfl, rfl, rfl, rfl,
      fun hand hh => ⟨hand, hh, rfl⟩⟩
  | succ n ih =>
    intro gs gs' h
    simp only [GameState.give_loop] at h
    split at h
    · simp at h
    · rename_i gs1 heq1
      split at h
      · simp at h
      · split at h
        · simp at h
        · rename_i card gs2 heq2
          split at h
          · simp at h
          · rename_i gs3 heq3
            obtain ⟨t1, d1, c1, r1, i1, p1, s1, l1, n1, hh1⟩ := refill_step_spec sh gs gs1 heq1
            obtain ⟨t2, d2, c2, r2, i2, p2, s2, l2, n2, hh2⟩ := draw_from_deck_spec gs1 card gs2 heq2
            obtain ⟨t3, d3, c3, r3, i3, p3, s3, l3, n3, ln3, hh3⟩ := receive_card_spec i card gs2 gs3 heq3
            obtain ⟨tI, dI, cI, rI, iI, pI, sI, lI, nI, lnI, hhI⟩ := ih gs3 gs' h
            refine ⟨tI.trans (t3.trans (t2.trans t1)), ?_, cI.trans (c3.trans (c2.trans c1)),
              rI.trans (r3.trans (r2.trans r1)), iI.trans (i3.trans (i2.trans i1)),
              pI.trans (p3.trans (p2.trans p1)), sI.trans (s3.trans (s2.trans s1)),
              lI.trans (l3.trans (l2.trans l1)), nI.trans (n3.trans (n2.trans n1)), ?_, ?_⟩
            · rw [dI, congrArg List.getLast? d3, congrArg List.getLast? d2, d1]
            · rw [lnI, ln3, congrArg List.length hh2, congrArg List.length hh1]
            · intro hand hh
              have hh' : gs2.hands[i]? = some hand := by rw [hh2, hh1]; exact hh
              obtain ⟨hand', hsome, hlen⟩ := hhI (hand ++ [card]) (hh3 hand hh')
              exact ⟨hand', hsome, by simp at hlen; omega⟩

/-- A successful _give_player_random_cards run is a successful draw loop
of the same length. -/
theorem give_player_random_cards_ok (i n : Nat) (sh : List Card → List Card)
    (gs gs' : GameState) (h : gs.give_player_random_cards i n sh = .ok ((), gs')) :
    GameState.give_loop i sh n gs = .ok ((), gs') := by
  unfold GameState.give_player_random_cards at h
  split at h
  · simp at h
  · exact h

/-- Declining while specifying a color fails immediately with
SpecifiedColorButNoCard and no state change. -/
theorem handle_does_not_some_err (i : Nat) (c : CardColor)
    (sh : List Card → List Card) (gs : GameState) :
    gs.handle_player_does_not_play_a_card i (some c) sh
      = .error (.specifiedColorButNoCardError, gs) := rfl

/-- A successful decline drew max(chain sum, 1) cards into the acting
player's hand, cleared the draw chain, and returned the unchanged assigned
wildcard color; all other round state is untouched. -/
theorem handle_does_not_ok (i : Nat) (w : Option CardColor)
    (sh : List Card → List Card) (gs : GameState) (tc : Option CardColor)
    (gs2 : GameState)
    (h : gs.handle_player_does_not_play_a_card i w sh = .ok (tc, gs2)) :
    w = none ∧ tc = gs.temporary_top_card_color ∧
    gs2.draw_chain = [] ∧
    gs2.temporary_top_card_color = gs.temporary_top_card_color ∧
    gs2.discard_pile.getLast? = gs.discard_pile.getLast? ∧
    gs2.round_number = gs.round_number ∧
    gs2.current_player_index = gs.current_player_index ∧
    gs2.play_direction = gs.play_direction ∧
    gs2.next_round_is_skip = gs.next_round_is_skip ∧
    gs2.round_limit = gs.round_limit ∧
    gs2.hands.length = gs.hands.length ∧
    ∀ hand, gs.hands[i]? = some hand →
      ∃ hand', gs2.hands[i]? = some hand' ∧
        hand'.length = hand.length +
          max gs.calculate_number_of_cards_to_draw_in_current_draw_chain 1 := by
  simp only [GameState.handle_player_does_not_play_a_card] at h
  split at h
  · simp at h
  · split at h
    · simp at h
    · rename_i gs1 heq
      have hloop := give_player_random_cards_ok i
        (max gs.calculate_number_of_cards_to_draw_in_current_draw_chain 1) sh gs gs1 heq
      obtain ⟨t1, d1, c1, r1, i1, p1, s1, l1, _, ln1, hh1⟩ :=
        give_loop_spec i sh _ gs gs1 hloop
      injection h with h1
      injection h1 with h2 h3
      subst h3
      subst h2
      exact ⟨rfl, t1, rfl, t1, d1, r1, i1, p1, s1, l1, ln1, hh1⟩

/-- C2: on a non-terminal, non-skipped round, declining while specifying a
wildcard color fails with SpecifiedColorButNoCard (and no state change);
declining without a color, when it succeeds, gives the acting player
exactly max(S, 1) cards where S is the spec's chain sum (2 per Draw2, 4
per Draw4), clears the draw chain, and leaves the assigned wildcard color
unchanged. -/
theorem uno_c2 (gs : GameState) (sh : List Card → List Card)
    (hover : gs.game_over = false) (hskip : gs.next_round_is_skip = false)
    (hidx : gs.current_player_index < gs.hands.length)
    (hdisc : gs.discard_pile ≠ [])
    (hchain : ∀ card ∈ gs.draw_chain, card.value.is_draw_value = true) :
    (∀ c : CardColor, gs.play_one_round (none, some c) sh
        = .error (.specifiedColorButNoCardError, gs)) ∧
    (∀ (b : Bool) (gs' : GameState),
      gs.play_one_round (none, none) sh = .ok (b, gs') →
      ∃ hand hand', gs.hands[gs.current_player_index]? = some hand ∧
        gs'.hands[gs.current_player_index]? = some hand' ∧
        hand'.length = hand.length + max (SpecDrawSum gs) 1 ∧
        gs'.draw_chain = [] ∧
        gs'.temporary_top_card_color = gs.temporary_top_card_color) := by
  have hlen : gs.discard_pile.length ≠ 0 := fun h0 => hdisc (List.length_eq_zero.mp h0)
  have htop : gs.top_card = .ok (gs.discard_pile.getLast hdisc) := by
    unfold GameState.top_card
    rw [if_neg hlen, List.getLast?_eq_getLast _ hdisc]
  constructor
  · intro c
    simp [GameState.play_one_round, hover, hskip, htop, GameState.handle_play,
      List.getElem?_eq_getElem hidx, handle_does_not_some_err]
  · intro b gs' h
    simp only [GameState.play_one_round, hover, hskip, htop, GameState.handle_play,
      List.getElem?_eq_getElem hidx, Bool.false_eq_true, if_false] at h
    split at h
    · simp at h
    · rename_i tc gs1 heq
      obtain ⟨-, htc, hch, ht1, hd1, -, -, -, -, -, hln1, hh1⟩ :=
        handle_does_not_ok gs.current_player_index none sh gs tc gs1 heq
      simp only [GameState.advance_and_finish] at h
      split at h
      · simp at h
      · injection h with h1
        injection h1 with _ h2
        subst h2
        obtain ⟨hand', hsome, hlen'⟩ :=
          hh1 (gs.hands[gs.current_player_index]) (List.getElem?_eq_getElem hidx)
        refine ⟨gs.hands[gs.current_player_index], hand',
          List.getElem?_eq_getElem hidx, hsome, ?_, hch, htc⟩
        rw [hlen', specDrawSum_eq gs hchain]


/-- C2 witness: in the concrete chained state, declining with a specified
color fails with SpecifiedColorButNoCard and an unchanged state. -/
theorem uno_c2_witness :
    wC2Gs.play_one_round (none, some CardColor.RED) idSh
      = .error (.specifiedColorButNoCardError, wC2Gs) :=
  (uno_c2 wC2Gs idSh rfl rfl (by decide) (by decide) (by decide)).1 CardColor.RED

/-- A failing validation returns the state unchanged. -/
theorem validate_card_play_error (i : Nat) (card : Card)
    (w : Option CardColor) (gs : GameState) (e : PyErr) (gs1 : GameState)
    (h : gs.validate_card_play i card w = .error (e, gs1)) : gs1 = gs := by
  unfold GameState.validate_card_play at h
  repeat' split at h
  all_goals
    first
      | (injection h with h1; injection h1 with _ h2; exact h2.symm)
      | simp at h

/-- A successful validation returns the state unchanged and certifies:
the card is valid, it is in the acting player's hand, and the specified
color is consistent (a set non-wildcard color iff the card is a
wildcard). -/
theorem validate_card_play_ok (i : Nat) (card : Card)
    (w : Option CardColor) (gs : GameState) (u : Unit) (gs0 : GameState)
    (h : gs.validate_card_play i card w = .ok (u, gs0)) :
    gs0 = gs ∧ card.check_valid = true ∧
    (∃ hand, gs.hands[i]? = some hand ∧ card ∈ hand) ∧
    (card.is_wild_card = true → ∃ x, w = some x ∧ x ≠ CardColor.WILDCARD) ∧
    (card.is_color_card = true → w = none) := by
  unfold GameState.validate_card_play at h
  split at h
  · simp at h
  · rename_i hvalid
    split at h
    · simp at h
    · rename_i hnotwc
      split at h
      · simp at h
      · rename_i hand heq
        split at h
        · simp at h
        · rename_i hcont
          split at h
          · simp at h
          · split at h
            · simp at h
            · simp at h
            · rename_i hcan
              split at h
              · simp at h
              · rename_i hnw1
                split at h
                · simp at h
                · rename_i hnw2
                  injection h with h1
                  injection h1 with _ h2
                  refine ⟨h2.symm, by simpa using hvalid,
                    ⟨hand, heq, by simpa using hcont⟩, ?_, ?_⟩
                  · intro hwild
                    rw [Bool.not_eq_true] at hnw1
                    simp only [Bool.and_eq_false_iff] at hnw1
                    rcases hnw1 with hn | hn
                    · obtain ⟨x, hx⟩ := Option.ne_none_iff_exists.mp (by simpa using hn)
                      refine ⟨x, hx.symm, ?_⟩
                      intro hxw
                      subst hxw
                      rw [← hx] at hnotwc
                      simp at hnotwc
                    · rw [hwild] at hn; simp at hn
                  · intro hcolor
                    have hwf : card.is_wild_card = false := Card.color_not_wild hcolor
                    rw [Bool.not_eq_true] at hnw2
                    simp only [Bool.and_eq_false_iff] at hnw2
                    rcases hnw2 with hn | hn
                    · simpa using hn
                    · rw [hwf] at hn; simp at hn

/-- A successful hand removal erases the first copy of the card from the
indexed player's hand and changes nothing else. -/
theorem remove_from_player_ok (i : Nat) (card : Card) (gs gs1 : GameState)
    (h : gs.remove_card_from_player i card = .ok ((), gs1)) :
    ∃ hand, gs.hands[i]? = some hand ∧ card ∈ hand ∧
      gs1 = { gs with hands := gs.hands.set i (hand.erase card) } := by
  unfold GameState.remove_card_from_player at h
  split at h
  · simp at h
  · rename_i hand heq
    split at h
    · simp at h
    · rename_i hcont
      injection h with h1
      injection h1 with _ h2
      exact ⟨hand, heq, by simpa using hcont, h2.symm⟩

/-- A successful handle_player_wants_to_play_a_card run validated the
card, erased it from the acting player's hand, left the discard pile and
assigned wildcard color untouched (the append happens later in
play_one_round), and returned the specified color. -/
theorem handle_wants_ok (i : Nat) (card : Card) (w : Option CardColor)
    (gs : GameState) (tc : Option CardColor) (gs3 : GameState)
    (h : gs.handle_player_wants_to_play_a_card i card w = .ok (tc, gs3)) :
    tc = w ∧ card.check_valid = true ∧
    (card.is_wild_card = true → ∃ x, w = some x ∧ x ≠ CardColor.WILDCARD) ∧
    (card.is_color_card = true → w = none) ∧
    ∃ hand, gs.hands[i]? = some hand ∧ card ∈ hand ∧
      gs3.hands = gs.hands.set i (hand.erase card) ∧
      gs3.discard_pile = gs.discard_pile ∧
      gs3.temporary_top_card_color = gs.temporary_top_card_color ∧
      gs3.next_round_is_skip = gs.next_round_is_skip ∧
      gs3.current_player_index = gs.current_player_index ∧
      gs3.round_number = gs.round_number ∧
      gs3.round_limit = gs.round_limit ∧
      gs3.hands.length = gs.hands.length := by
  simp only [GameState.handle_player_wants_to_play_a_card] at h
  split at h
  · simp at h
  · rename_i gs0 heqv
    obtain ⟨hgs0, hval, hin, hwild, hcolor⟩ := validate_card_play_ok i card w gs () gs0 heqv
    subst hgs0
    split at h
    · simp at h
    · rename_i gs1 heqr
      obtain ⟨hand, heq, hmem, hgs1⟩ := remove_from_player_ok i card gs0 gs1 heqr
      subst hgs1
      split at h <;> split at h <;>
        · injection h with h1
          injection h1 with hw h2
          subst h2
          exact ⟨hw.symm, hval, hwild, hcolor, hand, heq, hmem, rfl, rfl, rfl, rfl,
            rfl, rfl, rfl, List.length_set ..⟩

/-- A failing hand removal returns the state unchanged. -/
theorem remove_from_player_error (i : Nat) (card : Card) (gs : GameState)
    (e : PyErr) (gs1 : GameState)
    (h : gs.remove_card_from_player i card = .error (e, gs1)) : gs1 = gs := by
  unfold GameState.remove_card_from_player at h
  repeat' split at h
  all_goals
    first
      | (injection h with h1; injection h1 with _ h2; exact h2.symm)
      | simp at h

/-- A failing handle_player_wants_to_play_a_card run returns the state
unchanged: validation and the hand re-check both precede every mutation. -/
theorem handle_wants_error (i : Nat) (card : Card) (w : Option CardColor)
    (gs : GameState) (e : PyErr) (gs1 : GameState)
    (h : gs.handle_player_wants_to_play_a_card i card w = .error (e, gs1)) :
    gs1 = gs := by
  simp only [GameState.handle_player_wants_to_play_a_card] at h
  split at h
  · rename_i ep heqv
    injection h with h1
    subst h1
    exact validate_card_play_error i card w gs e gs1 heqv
  · rename_i gs0 heqv
    obtain ⟨hgs0, -, -, -, -⟩ := validate_card_play_ok i card w gs () gs0 heqv
    subst hgs0
    split at h
    · rename_i ep heqr
      injection h with h1
      subst h1
      exact remove_from_player_error i card gs0 e gs1 heqr
    · simp at h

/-- advance_and_finish can only fail on an empty player list, in which
case the state is unchanged. -/
theorem advance_error (gs : GameState) (e : PyErr) (gs' : GameState)
    (h : gs.advance_and_finish = .error (e, gs')) :
    gs' = gs ∧ gs.hands.length = 0 := by
  unfold GameState.advance_and_finish at h
  split at h
  · refine ⟨?_, by assumption⟩
    injection h with h1
    injection h1 with _ h2
    exact h2.symm
  · simp at h

/-- C5: for any play of a card, every error outcome of play_one_round
leaves the entire game state unchanged (so no validation failure can
happen after the card left the hand), and every success on a non-skipped
round removed the card from the acting player's hand and appended it to
the discard pile. -/
theorem uno_c5 (gs : GameState) (sh : List Card → List Card)
    (card : Card) (w : Option CardColor) :
    (∀ (e : PyErr) (gs' : GameState),
      gs.play_one_round (some card, w) sh = .error (e, gs') → gs' = gs) ∧
    (gs.next_round_is_skip = false →
      ∀ (b : Bool) (gs' : GameState),
        gs.play_one_round (some card, w) sh = .ok (b, gs') →
        HandToDiscard gs gs' card) := by
  constructor
  · intro e gs' h
    simp only [GameState.play_one_round, GameState.handle_play] at h
    split at h
    · injection h with h1; injection h1 with _ h2; exact h2.symm
    · split at h
      · injection h with h1; injection h1 with _ h2; exact h2.symm
      · rename_i cur hcur
        have hlen : gs.hands.length ≠ 0 := by
          have := (List.getElem?_eq_some.mp hcur).1
          omega
        split at h
        · obtain ⟨-, hlen0⟩ := advance_error _ e gs' h
          exact absurd hlen0 (by simpa using hlen)
        · split at h
          · injection h with h1; injection h1 with _ h2; exact h2.symm
          · split at h
            · rename_i ep heqw
              injection h with h1
              subst h1
              exact handle_wants_error _ card w gs e gs' heqw
            · rename_i tc gs1 heqw
              obtain ⟨-, -, -, -, hand, heq, hmem, hhands, hdisc1, -, -, -, -, -, hlen1⟩ :=
                handle_wants_ok _ card w gs tc gs1 heqw
              obtain ⟨-, hlen0⟩ := advance_error _ e gs' h
              split at hlen0 <;> (dsimp only at hlen0; omega)
  · intro hskip b gs' h
    simp only [GameState.play_one_round, GameState.handle_play] at h
    split at h
    · simp at h
    · split at h
      · simp at h
      · rename_i cur hcur
        have hlt : gs.current_player_index < gs.hands.length :=
          (List.getElem?_eq_some.mp hcur).1
        split at h
        · rename_i hsk
          rw [hskip] at hsk
          exact absurd hsk (by simp)
        · split at h
          · simp at h
          · split at h
            · simp at h
            · rename_i tc gs1 heqw
              obtain ⟨-, -, -, -, hand, heq, hmem, hhands, hdisc1, -, -, -, -, -, hlen1⟩ :=
                handle_wants_ok _ card w gs tc gs1 heqw
              unfold GameState.advance_and_finish at h
              split at h <;>
              · split at h
                · rename_i h0
                  have h00 : gs1.hands.length = 0 := by simp [h0]
                  omega
                · injection h with h1
                  injection h1 with _ h2
                  subst h2
                  refine ⟨hand, heq, hmem, ?_, ?_⟩
                  · dsimp only
                    rw [hhands]
                    exact List.getElem?_set_self hlt
                  · dsimp only
                    rw [hdisc1]

/-- C5 witness: in the concrete state, playing red One moves it from the
hand to the top of the discard pile. -/
theorem uno_c5_witness : HandToDiscard wC5Gs wC5After redOne :=
  (uno_c5 wC5Gs idSh redOne none).2 rfl wC5Bool wC5After rfl

/-- Any successful round either leaves the top discard card and the
assigned wildcard color both unchanged (skip and decline branches), or
ends with the played card on top and the assigned color equal to the
specified color, which validation forced to be consistent with the card's
kind (play branch). -/
theorem play_ok_inv (gs : GameState) (move : Option Card × Option CardColor)
    (sh : List Card → List Card) (b : Bool) (gs' : GameState)
    (h : gs.play_one_round move sh = .ok (b, gs')) :
    (gs'.discard_pile.getLast? = gs.discard_pile.getLast? ∧
      gs'.temporary_top_card_color = gs.temporary_top_card_color) ∨
    (∃ card, move.1 = some card ∧ card.check_valid = true ∧
      gs'.discard_pile.getLast? = some card ∧
      gs'.temporary_top_card_color = move.2 ∧
      (card.is_wild_card = true → ∃ x, move.2 = some x ∧ x ≠ CardColor.WILDCARD) ∧
      (card.is_color_card = true → move.2 = none)) := by
  unfold GameState.play_one_round at h
  split at h
  · simp at h
  · split at h
    · simp at h
    · split at h
      · left
        unfold GameState.advance_and_finish at h
        split at h
        · simp at h
        · injection h with h1
          injection h1 with _ h2
          subst h2
          exact ⟨rfl, rfl⟩
      · split at h
        · simp at h
        · split at h
          · simp at h
          · rename_i tc gs1 heqp
            cases hm : move.1 with
            | none =>
              simp only [hm] at h
              simp only [GameState.handle_play, hm] at heqp
              obtain ⟨-, htc, -, ht1, hd1, -, -, -, -, -, -, -⟩ :=
                handle_does_not_ok gs.current_player_index move.2 sh gs tc gs1 heqp
              left
              unfold GameState.advance_and_finish at h
              split at h
              · simp at h
              · injection h with h1
                injection h1 with _ h2
                subst h2
                exact ⟨hd1, htc⟩
            | some card =>
              simp only [hm] at h
              simp only [GameState.handle_play, hm] at heqp
              obtain ⟨hw, hval, hwild, hcolor, hand, heq, hmem, hhands, hdisc1, -, -, -, -, -, -⟩ :=
                handle_wants_ok gs.current_player_index card move.2 gs tc gs1 heqp
              right
              unfold GameState.advance_and_finish at h
              split at h <;>
              · split at h
                · simp at h
                · injection h with h1
                  injection h1 with _ h2
                  subst h2
                  refine ⟨card, rfl, hval, ?_, hw, hwild, hcolor⟩
                  dsimp only
                  exact List.getLast?_concat _

/-- A successful first-card pick returns a non-wild card and touches only
the deck and the random cursor. -/
theorem pick_first_spec : ∀ (fuel : Nat) (gs : GameState) (card : Card) (gs1 : GameState),
    GameState.pick_first_card fuel gs = .ok (card, gs1) →
    card.is_wild_card = false ∧
    gs1.temporary_top_card_color = gs.temporary_top_card_color ∧
    gs1.discard_pile = gs.discard_pile ∧
    gs1.draw_chain = gs.draw_chain ∧
    gs1.round_number = gs.round_number ∧
    gs1.current_player_index = gs.current_player_index ∧
    gs1.play_direction = gs.play_direction ∧
    gs1.next_round_is_skip = gs.next_round_is_skip ∧
    gs1.round_limit = gs.round_limit ∧
    gs1.number_of_cards_to_start_with = gs.number_of_cards_to_start_with ∧
    gs1.hands = gs.hands := by
  intro fuel
  induction fuel with
  | zero =>
    intro gs card gs1 h
    simp [GameState.pick_first_card] at h
  | succ n ih =>
    intro gs card gs1 h
    simp only [GameState.pick_first_card] at h
    split at h
    · simp at h
    · rename_i c2 gsd heqd
      obtain ⟨td, dd, cd, rd, id2, pd, sd, ld, nd, hd⟩ := draw_from_deck_spec gs c2 gsd heqd
      split at h
      · rename_i hnw
        injection h with h1
        injection h1 with h2 h3
        subst h2
        subst h3
        exact ⟨by simpa using hnw, td, dd, cd, rd, id2, pd, sd, ld, nd, hd⟩
      · obtain ⟨hwI, tI, dI, cI, rI, iI, pI, sI, lI, nI, hI⟩ := ih _ card gs1 h
        exact ⟨hwI, tI.trans td, dI.trans dd, cI.trans cd, rI.trans rd,
          iI.trans id2, pI.trans pd, sI.trans sd, lI.trans ld, nI.trans nd, hI.trans hd⟩

/-- Dealing the starting hands preserves the assigned wildcard color and
the top discard card. -/
theorem give_starting_spec (sh : List Card → List Card) :
    ∀ (idxs : List Nat) (gs gs' : GameState),
      GameState.give_starting_loop sh idxs gs = .ok ((), gs') →
      gs'.temporary_top_card_color = gs.temporary_top_card_color ∧
      gs'.discard_pile.getLast? = gs.discard_pile.getLast? := by
  intro idxs
  induction idxs with
  | nil =>
    intro gs gs' h
    simp only [GameState.give_starting_loop] at h
    injection h with h1
    injection h1 with _ h2
    subst h2
    exact ⟨rfl, rfl⟩
  | cons i rest ih =>
    intro gs gs' h
    simp only [GameState.give_starting_loop] at h
    split at h
    · simp at h
    · rename_i gs1 heq
      have hloop := give_player_random_cards_ok i _ sh gs gs1 heq
      obtain ⟨t1, d1, -⟩ := give_loop_spec i sh _ gs gs1 hloop
      obtain ⟨tI, dI⟩ := ih gs1 gs' h
      exact ⟨tI.trans t1, dI.trans d1⟩

/-- After a successful construction and pre-game setup the assigned
wildcard color is unset and the top discard card is a non-wild card. -/
theorem setup_inv (np rl sn fuel : Nat) (stream : Nat → Nat)
    (sh : List Card → List Card) (gs0 gs : GameState)
    (h0 : GameState.construct np rl sn stream = .ok gs0)
    (h : gs0.do_pre_game_setup fuel sh = .ok ((), gs)) :
    gs.temporary_top_card_color = none ∧
    ∃ card, gs.discard_pile.getLast? = some card ∧ card.is_wild_card = false := by
  unfold GameState.construct at h0
  split at h0
  · simp at h0
  · split at h0
    · simp at h0
    · injection h0 with h1
      subst h1
      simp only [GameState.do_pre_game_setup] at h
      split at h
      · simp at h
      · rename_i card gs1 heqp
        obtain ⟨hw, tp, dp, -⟩ := pick_first_spec fuel _ card gs1 heqp
        obtain ⟨tg, dg⟩ := give_starting_spec sh _ _ gs h
        constructor
        · rw [tg]
          exact tp
        · refine ⟨card, ?_, hw⟩
          rw [dg]
          show (gs1.discard_pile ++ [card]).getLast? = some card
          exact List.getLast?_concat _

/-- C3: in every state reachable from setup via successful play_one_round
calls, the assigned wildcard color is None whenever the top discard card
is a color card, and is a set non-wildcard color whenever the top card is
a wildcard. -/
theorem uno_c3 : ∀ gs : GameState, Reachable gs → gs.color_invariant = true := by
  intro gs h
  induction h with
  | setup np rl sn fuel stream sh gs0 gsS h0 hS =>
    obtain ⟨ht, card, hd, hw⟩ := setup_inv np rl sn fuel stream sh gs0 gsS h0 hS
    unfold GameState.color_invariant
    rw [hd, ht]
    simp [hw]
  | step gsp move sh b gs' hr hstep ih =>
    rcases play_ok_inv gsp move sh b gs' hstep with
      ⟨hd, ht⟩ | ⟨card, hm, hval, hd, ht, hwild, hcolor⟩
    · unfold GameState.color_invariant at ih ⊢
      rw [hd, ht]
      exact ih
    · unfold GameState.color_invariant
      rw [hd, ht]
      cases hvv : card.is_wild_card with
      | false =>
        have hcc : card.is_color_card = true := by
          unfold Card.check_valid at hval
          rw [hvv] at hval
          simpa using hval
        rw [hcolor hcc]
        simp [hvv]
      | true =>
        obtain ⟨x, hx, hxw⟩ := hwild hvv
        rw [hx]
        simp [Card.wild_not_color hvv, hxw]

/-- C3 witness: the state after the concrete demo setup is reachable and
satisfies the invariant. -/
theorem uno_c3_witness : demoGs.color_invariant = true :=
  uno_c3 demoGs (Reachable.setup 2 1000 1 1 zeroStream idSh demoGs0 demoGs rfl rfl)
